import Mathlib

/-!
Verification of the PLACAS_EC vehicle-consultation backend.

This file gives a shallow embedding, in Lean 4, of the pure computational
core of the repository's backend (plate and national-id validation, the
fiscal-component aggregation, the payment-history aggregation, the IACV
installment due-date estimation, the consolidated risk scorer, the
TTL/LRU response cache, and the consultation pipeline's control flow),
and proves or refutes the frozen specification claims about them.

Monetary amounts (Python floats in the source) are modelled as rationals;
machine times (datetime values) as rational "hours"; JSON values that may
be non-numeric are modelled as `Option` fields.
-/

namespace PlacasEC

/-! ## Plate normalization (`PlateValidator.normalize_plate`) -/

/-- Uppercase ASCII letter test, the character class `[A-Z]` (codes 65..90). -/
def isUpperLetter (c : Char) : Bool := 65 ≤ c.toNat && c.toNat ≤ 90

/-- ASCII digit test, the character class `[0-9]` (codes 48..57). -/
def isDigitChar (c : Char) : Bool := 48 ≤ c.toNat && c.toNat ≤ 57

/-- Character class `[A-Z0-9]` kept by the cleaning regex `re.sub(r'[^A-Z0-9]', '', ...)`. -/
def isPlateChar (c : Char) : Bool := isUpperLetter c || isDigitChar c

/-- Per-character uppercasing, `str.upper()` restricted to ASCII:
codes 97..122 are shifted down by 32, everything else is left alone.
(Characters on which the full Unicode `upper()` differs are all outside
`[A-Z0-9]` both before and after uppercasing, so they are dropped by the
cleaning filter either way.) -/
def upChar (c : Char) : Char :=
  if 97 ≤ c.toNat ∧ c.toNat ≤ 122 then Char.ofNat (c.toNat - 32) else c

/-- `re.sub(r'[^A-Z0-9]', '', placa.upper())`: uppercase, then drop every
character outside `[A-Z0-9]`. -/
def cleanPlate (l : List Char) : List Char :=
  (l.map upChar).filter isPlateChar

/-- Whether a cleaned plate matches the regex `^([A-Z]{2,3})(\d{3})$`:
a maximal letter prefix of length 2 or 3 followed by exactly three digits.
(Letters and digits are disjoint classes, so the maximal-munch split is the
only possible regex split.) -/
def matchesPlate3 (l : List Char) : Bool :=
  let letters := l.takeWhile isUpperLetter
  let rest := l.dropWhile isUpperLetter
  (letters.length = 2 || letters.length = 3) && rest.length = 3 && rest.all isDigitChar

/-- `PlateValidator.normalize_plate`: returns `(placa_original, placa_normalizada,
was_modified)` where `placa_original` is the cleaned input, and the normalized
plate inserts a literal `0` before the digit run exactly when the cleaned
string matches `^([A-Z]{2,3})(\d{3})$`.  The source's memoization cache does
not change the computed value and is not modelled. -/
def normalize_plate (placa : String) : String × String × Bool :=
  if placa = "" then (placa, placa, false)
  else
    let c := cleanPlate placa.data
    if matchesPlate3 c then
      let letters := c.takeWhile isUpperLetter
      let rest := c.dropWhile isUpperLetter
      (String.mk c, String.mk (letters ++ '0' :: rest), true)
    else (String.mk c, String.mk c, false)

example : normalize_plate "ABC123" = ("ABC123", "ABC0123", true) := by decide
example : normalize_plate "ab-c123" = ("ABC123", "ABC0123", true) := by decide
example : normalize_plate "ABC0123" = ("ABC0123", "ABC0123", false) := by decide
example : normalize_plate "" = ("", "", false) := by decide
example : normalize_plate "AB123" = ("AB123", "AB0123", true) := by decide
example : normalize_plate "ABCD123" = ("ABCD123", "ABCD123", false) := by decide

/-! ### Lemmas towards idempotence of plate normalization -/

theorem upChar_of_plateChar {c : Char} (h : isPlateChar c = true) : upChar c = c := by
  simp only [isPlateChar, isUpperLetter, isDigitChar, Bool.or_eq_true, Bool.and_eq_true,
    decide_eq_true_eq] at h
  unfold upChar
  rw [if_neg]
  omega

theorem map_upChar_fixed : ∀ (l : List Char), (∀ c ∈ l, isPlateChar c = true) →
    l.map upChar = l := by
  intro l
  induction l with
  | nil => intro _; rfl
  | cons a t ih =>
    intro h
    simp only [List.map_cons]
    rw [upChar_of_plateChar (h a (by simp)), ih fun c hc => h c (by simp [hc])]

theorem cleanPlate_fixed {l : List Char} (h : ∀ c ∈ l, isPlateChar c = true) :
    cleanPlate l = l := by
  unfold cleanPlate
  rw [map_upChar_fixed l h]
  exact List.filter_eq_self.mpr h

theorem mem_cleanPlate_plateChar {l : List Char} {c : Char} (h : c ∈ cleanPlate l) :
    isPlateChar c = true := by
  unfold cleanPlate at h
  exact List.of_mem_filter h

theorem takeWhile_append_of_all {p : Char → Bool} {L r : List Char}
    (h : ∀ c ∈ L, p c = true) : (L ++ r).takeWhile p = L ++ r.takeWhile p := by
  induction L with
  | nil => simp
  | cons a t ih =>
    simp only [List.cons_append, List.takeWhile_cons, h a (by simp)]
    rw [ih fun c hc => h c (by simp [hc])]
    simp

theorem dropWhile_append_of_all {p : Char → Bool} {L r : List Char}
    (h : ∀ c ∈ L, p c = true) : (L ++ r).dropWhile p = r.dropWhile p := by
  induction L with
  | nil => simp
  | cons a t ih =>
    simp only [List.cons_append, List.dropWhile_cons, h a (by simp)]
    exact ih fun c hc => h c (by simp [hc])

/-- Inserting the `0` destroys the `^([A-Z]{2,3})(\d{3})$` match: the digit
run then has length 4. -/
theorem matchesPlate3_insert_false {c : List Char} (h : matchesPlate3 c = true) :
    matchesPlate3 ((c.takeWhile isUpperLetter) ++ '0' :: (c.dropWhile isUpperLetter)) = false := by
  simp only [matchesPlate3, Bool.and_eq_true, Bool.or_eq_true, decide_eq_true_eq] at h
  obtain ⟨⟨hlen, hrest⟩, _hdig⟩ := h
  have hletters : ∀ x ∈ c.takeWhile isUpperLetter, isUpperLetter x = true :=
    fun x hx => List.mem_takeWhile_imp hx
  simp only [matchesPlate3]
  rw [takeWhile_append_of_all hletters, dropWhile_append_of_all hletters]
  have h0 : isUpperLetter '0' = false := by decide
  simp only [List.takeWhile_cons, List.dropWhile_cons, h0]
  simp only [Bool.false_eq_true, if_false, List.append_nil, List.length_cons, hrest]
  simp

/-- The normalized plate consists only of `[A-Z0-9]` characters. -/
theorem normalized_all_plateChar (p : String) :
    ∀ c ∈ (normalize_plate p).2.1.data, isPlateChar c = true := by
  unfold normalize_plate
  by_cases hp : p = ""
  · simp [hp]
  · simp only [if_neg hp]
    by_cases hm : matchesPlate3 (cleanPlate p.data) = true
    · simp only [hm, if_pos]
      intro c hc
      simp only [List.mem_append, List.mem_cons] at hc
      rcases hc with hc | hc | hc
      · have : isUpperLetter c = true := List.mem_takeWhile_imp hc
        simp [isPlateChar, this]
      · subst hc; decide
      · exact mem_cleanPlate_plateChar ((List.dropWhile_sublist _).subset hc)
    · simp only [Bool.not_eq_true] at hm
      simp only [hm, Bool.false_eq_true, if_false]
      intro c hc
      exact mem_cleanPlate_plateChar hc

theorem string_mk_data (s : String) : String.mk s.data = s := rfl

/-- A plate string that is already clean and does not match the insertion
pattern passes through `normalize_plate` untouched. -/
theorem normalize_plate_of_clean_nomatch (s : String)
    (hclean : ∀ c ∈ s.data, isPlateChar c = true)
    (hm : matchesPlate3 s.data = false) :
    normalize_plate s = (s, s, false) := by
  unfold normalize_plate
  by_cases hs : s = ""
  · simp [hs]
  · simp only [if_neg hs, cleanPlate_fixed hclean, hm, Bool.false_eq_true, if_false,
      string_mk_data]

/-- The normalized output of `normalize_plate` never matches the insertion
pattern again. -/
theorem normalized_not_matches (p : String) :
    matchesPlate3 (normalize_plate p).2.1.data = false := by
  by_cases hp : p = ""
  · subst hp; decide
  · unfold normalize_plate
    simp only [if_neg hp]
    by_cases hm : matchesPlate3 (cleanPlate p.data) = true
    · simp only [hm, if_pos]
      exact matchesPlate3_insert_false hm
    · simp only [Bool.not_eq_true] at hm
      simp only [hm, Bool.false_eq_true, if_false]

/-- C5, counterexample: the claimed equation
`NormalizePlate(NormalizePlate(p).normalized) == NormalizePlate(p)` fails at
`p = "ABC123"`: the first run returns `("ABC123", "ABC0123", wasModified=true)`,
while re-running on the normalized plate returns
`("ABC0123", "ABC0123", wasModified=false)`. -/
theorem claim_C5_counterexample :
    normalize_plate ((normalize_plate "ABC123").2.1) ≠ normalize_plate "ABC123" := by
  decide

/-- C5 (amended): plate normalization is idempotent on its normalized output:
for every input `p`, running `normalize_plate` again on the normalized plate is
a no-op, returning that very plate unchanged with `wasModified = false` (and the
cleaned "original" equal to it).  The full result triple of the second run
coincides with the first run's triple exactly when the first run reported
`wasModified = false`; when the first run modified the plate the two triples
differ in the original and `wasModified` fields. -/
theorem claim_C5_normalize_plate_idempotent (p : String) :
    normalize_plate ((normalize_plate p).2.1) =
      ((normalize_plate p).2.1, (normalize_plate p).2.1, false) :=
  normalize_plate_of_clean_nomatch _ (normalized_all_plateChar p) (normalized_not_matches p)

/-! ## National-id validation (`CedulaValidator.validate_ecuadorian_id`) -/

/-- Numeric value of an ASCII digit character. -/
def digitVal (c : Char) : ℕ := c.toNat - 48

/-- The province-code prefixes accepted by `PROVINCE_CODES` (its key set). -/
def PROVINCE_CODES : List String :=
  ["01", "02", "03", "04", "05", "06", "07", "08", "09", "10", "11", "12",
   "13", "14", "15", "16", "17", "18", "19", "20", "21", "22", "23", "24", "30"]

/-- One step of the check-digit loop: the digit times its coefficient, with 9
subtracted whenever the product exceeds 9. -/
def contribucion (d k : ℕ) : ℕ :=
  let r := d * k
  if r > 9 then r - 9 else r

/-- The weighted total over the first nine digits, with coefficients
`[2, 1, 2, 1, 2, 1, 2, 1, 2]`. -/
def cedulaTotal (ds : List ℕ) : ℕ :=
  (List.zipWith contribucion ds [2, 1, 2, 1, 2, 1, 2, 1, 2]).sum

/-- `CedulaValidator.validate_ecuadorian_id`: exactly ten characters, all
digits, listed province prefix, third digit below 6, and the modulus-10
weighted check digit must equal the tenth digit.  The memoization cache does
not change the computed value and is not modelled. -/
def validate_ecuadorian_id (cedula : String) : Bool :=
  if cedula.data.length = 10 && cedula.data.all isDigitChar then
    if PROVINCE_CODES.contains (String.mk (cedula.data.take 2)) then
      if digitVal (cedula.data.getD 2 '0') < 6 then
        decide ((10 - (cedulaTotal ((cedula.data.take 9).map digitVal)) % 10) % 10
          = digitVal (cedula.data.getD 9 '0'))
      else false
    else false
  else false

/-- The validity condition exactly as the specification words it: a
conjunction of length, digit-only, province prefix, third-digit and
check-digit conditions (used to compare the sequential early-return code
against the spec). -/
def cedulaSpecValid (c : String) : Prop :=
  c.data.length = 10 ∧ (∀ ch ∈ c.data, isDigitChar ch = true) ∧
  PROVINCE_CODES.contains (String.mk (c.data.take 2)) = true ∧
  digitVal (c.data.getD 2 '0') < 6 ∧
  (10 - (cedulaTotal ((c.data.take 9).map digitVal)) % 10) % 10 = digitVal (c.data.getD 9 '0')

example : validate_ecuadorian_id "1712345675" = true := by decide
example : validate_ecuadorian_id "1712345676" = false := by decide
example : validate_ecuadorian_id "9912345675" = false := by decide
example : validate_ecuadorian_id "1762345670" = false := by decide
example : validate_ecuadorian_id "171234567" = false := by decide

theorem digitVal_inj {a b : Char} (ha : isDigitChar a = true) (hb : isDigitChar b = true)
    (h : digitVal a = digitVal b) : a = b := by
  simp only [isDigitChar, Bool.and_eq_true, decide_eq_true_eq] at ha hb
  have hnat : a.toNat = b.toNat := by
    unfold digitVal at h
    omega
  calc a = Char.ofNat a.toNat := (Char.ofNat_toNat a).symm
    _ = Char.ofNat b.toNat := by rw [hnat]
    _ = b := Char.ofNat_toNat b

theorem validate_iff_spec (c : String) :
    validate_ecuadorian_id c = true ↔ cedulaSpecValid c := by
  unfold validate_ecuadorian_id cedulaSpecValid
  split_ifs with h1 h2 h3
  · simp only [Bool.and_eq_true, decide_eq_true_eq] at h1
    simp only [decide_eq_true_eq]
    constructor
    · intro h
      exact ⟨h1.1, List.all_eq_true.mp h1.2, h2, h3, h⟩
    · rintro ⟨-, -, -, -, hcheck⟩
      exact hcheck
  · exact iff_of_false (by simp) fun hs => h3 hs.2.2.2.1
  · exact iff_of_false (by simp) fun hs => h2 hs.2.2.1
  · refine iff_of_false (by simp) fun hs => h1 ?_
    simp only [Bool.and_eq_true, decide_eq_true_eq]
    exact ⟨hs.1, List.all_eq_true.mpr hs.2.1⟩

theorem validate_flip (d0 d1 d2 d3 d4 d5 d6 d7 d8 d9 e : Char)
    (hv : validate_ecuadorian_id (String.mk [d0, d1, d2, d3, d4, d5, d6, d7, d8, d9]) = true)
    (he : isDigitChar e = true) (hne : e ≠ d9) :
    validate_ecuadorian_id (String.mk [d0, d1, d2, d3, d4, d5, d6, d7, d8, e]) = false := by
  have hs := (validate_iff_spec _).mp hv
  rw [← Bool.not_eq_true]
  intro hv'
  have hs' := (validate_iff_spec _).mp hv'
  have hd9 : isDigitChar d9 = true := hs.2.1 d9 (by simp)
  have hchk := hs.2.2.2.2
  have hchk' := hs'.2.2.2.2
  have hget : (String.mk [d0, d1, d2, d3, d4, d5, d6, d7, d8, d9]).data.getD 9 '0' = d9 := rfl
  have hget' : (String.mk [d0, d1, d2, d3, d4, d5, d6, d7, d8, e]).data.getD 9 '0' = e := rfl
  have htake : (String.mk [d0, d1, d2, d3, d4, d5, d6, d7, d8, d9]).data.take 9
      = (String.mk [d0, d1, d2, d3, d4, d5, d6, d7, d8, e]).data.take 9 := rfl
  rw [hget] at hchk
  rw [hget'] at hchk'
  rw [htake] at hchk
  exact hne (digitVal_inj he hd9 (hchk'.symm.trans hchk))

/-- C6: national-id validation accepts a string exactly when it has ten digit
characters, a listed province-code prefix, a third digit below 6, and a
matching modulus-10 weighted check digit; and replacing the last digit of any
accepted id by a different digit makes validation reject. -/
theorem claim_C6_validate_national_id :
    (∀ c : String, validate_ecuadorian_id c = true ↔ cedulaSpecValid c) ∧
    (∀ d0 d1 d2 d3 d4 d5 d6 d7 d8 d9 e : Char,
      validate_ecuadorian_id (String.mk [d0, d1, d2, d3, d4, d5, d6, d7, d8, d9]) = true →
      isDigitChar e = true → e ≠ d9 →
      validate_ecuadorian_id (String.mk [d0, d1, d2, d3, d4, d5, d6, d7, d8, e]) = false) :=
  ⟨validate_iff_spec, validate_flip⟩

/-- C6 witness: the hand-computed id `1712345675` (province 17, third digit 1,
check digit 5) is accepted, and flipping its last digit to 6 is rejected. -/
theorem claim_C6_witness :
    validate_ecuadorian_id "1712345675" = true ∧
    validate_ecuadorian_id "1712345676" = false := by
  constructor
  · exact (claim_C6_validate_national_id.1 "1712345675").mpr (by unfold cedulaSpecValid; decide)
  · exact claim_C6_validate_national_id.2 '1' '7' '1' '2' '3' '4' '5' '6' '7' '5' '6'
      (by decide) (by decide) (by decide)

/-! ## Fiscal-component aggregation
(`VehicleConsultantSRI._analizar_componentes_detallados_sri`) -/

/-- The component type derived at fetch time (`tipo_componente`). -/
inductive TipoComponente where
  | IMPUESTO
  | TASA
  | INTERES
  | MULTA
  | PRESCRIPCION
  | OTRO
deriving DecidableEq

/-- A fiscal component as consumed by the aggregation step:
`valorComponente` is `some v` when the JSON value is numeric (a missing key
defaults to the numeric 0) and `none` when it is present but non-numeric
(the loop then skips the component).  `tipo_componente` is the type derived
at fetch time, defaulting to `OTRO`. -/
structure Componente where
  valorComponente : Option ℚ
  tipo_componente : TipoComponente
deriving DecidableEq

/-- The six accumulated totals of the aggregation loop. -/
structure ComponentTotals where
  total_impuestos : ℚ
  total_tasas : ℚ
  total_intereses : ℚ
  total_multas : ℚ
  total_prescripciones : ℚ
  total_deudas_sri : ℚ
deriving DecidableEq

def zeroTotals : ComponentTotals := ⟨0, 0, 0, 0, 0, 0⟩

/-- One iteration of the aggregation loop: skip non-numeric values, route the
value into its per-type total (positive values only, except `PRESCRIPCION`
which is accumulated even when negative), then add every positive value —
regardless of type — to `total_deudas_sri` (`total_general` in the source). -/
def componentStep (t : ComponentTotals) (c : Componente) : ComponentTotals :=
  match c.valorComponente with
  | none => t
  | some valor =>
    let t1 :=
      if c.tipo_componente = .IMPUESTO ∧ valor > 0 then
        { t with total_impuestos := t.total_impuestos + valor }
      else if c.tipo_componente = .TASA ∧ valor > 0 then
        { t with total_tasas := t.total_tasas + valor }
      else if c.tipo_componente = .INTERES ∧ valor > 0 then
        { t with total_intereses := t.total_intereses + valor }
      else if c.tipo_componente = .MULTA ∧ valor > 0 then
        { t with total_multas := t.total_multas + valor }
      else if c.tipo_componente = .PRESCRIPCION then
        { t with total_prescripciones := t.total_prescripciones + valor }
      else t
    if valor > 0 then { t1 with total_deudas_sri := t1.total_deudas_sri + valor } else t1

/-- `_analizar_componentes_detallados_sri`, restricted to its pure
computation: fold the loop body over the component list. -/
def analizar_componentes_detallados (cs : List Componente) : ComponentTotals :=
  cs.foldl componentStep zeroTotals

/-- What the claim says `totalDebt` is: the sum of the strictly positive
numeric amounts whose derived type is not `PRESCRIPCION` (written from the
spec, to be compared against the source's aggregation). -/
def specTotalDebt (cs : List Componente) : ℚ :=
  (cs.filterMap fun c =>
    match c.valorComponente with
    | some v => if 0 < v ∧ c.tipo_componente ≠ .PRESCRIPCION then some v else none
    | none => none).sum

/-- The sum of all strictly positive numeric component amounts, of every type
including `PRESCRIPCION`. -/
def positiveAmountsSum (cs : List Componente) : ℚ :=
  (cs.filterMap fun c =>
    match c.valorComponente with
    | some v => if 0 < v then some v else none
    | none => none).sum

theorem componentStep_deudas (t : ComponentTotals) (c : Componente) :
    (componentStep t c).total_deudas_sri =
      t.total_deudas_sri +
        (match c.valorComponente with
         | some v => if 0 < v then v else 0
         | none => 0) := by
  rcases c with ⟨v, tp⟩
  rcases v with _ | v
  · simp [componentStep]
  · simp only [componentStep]
    by_cases hv : 0 < v
    · simp only [gt_iff_lt, hv, if_true]
      split_ifs <;> simp
    · simp only [gt_iff_lt, hv, if_false, and_false]
      split_ifs <;> simp

theorem foldl_componentStep_deudas (cs : List Componente) :
    ∀ t : ComponentTotals,
      (cs.foldl componentStep t).total_deudas_sri =
        t.total_deudas_sri + positiveAmountsSum cs := by
  induction cs with
  | nil => intro t; simp [positiveAmountsSum]
  | cons c rest ih =>
    intro t
    rw [List.foldl_cons, ih, componentStep_deudas]
    unfold positiveAmountsSum
    rcases hc : c.valorComponente with _ | v
    · simp [List.filterMap_cons, hc]
    · simp only [List.filterMap_cons, hc]
      by_cases hv : 0 < v
      · simp only [hv, if_true, if_pos hv, List.sum_cons]
        ring
      · simp only [hv, if_false, if_neg hv]
        ring

/-- C1, counterexample: a single positive `PRESCRIPCION` component of amount
100 is included in `total_deudas_sri` (which becomes 100), while the claim's
sum excludes it (0). -/
theorem claim_C1_counterexample :
    (analizar_componentes_detallados
        [{ valorComponente := some 100, tipo_componente := .PRESCRIPCION }]).total_deudas_sri ≠
      specTotalDebt [{ valorComponente := some 100, tipo_componente := .PRESCRIPCION }] := by
  have h : (analizar_componentes_detallados
      [{ valorComponente := some 100, tipo_componente := .PRESCRIPCION }]).total_deudas_sri =
      positiveAmountsSum [{ valorComponente := some 100, tipo_componente := .PRESCRIPCION }] := by
    unfold analizar_componentes_detallados
    rw [foldl_componentStep_deudas]
    simp [zeroTotals]
  rw [h]
  norm_num [positiveAmountsSum, specTotalDebt, List.filterMap_cons]

/-- C1 (amended): for every list of fiscal components, the consolidated debt
total `total_deudas_sri` equals the sum of all strictly positive numeric
component amounts of every derived type — positive `PRESCRIPCION` amounts are
included, not excluded. -/
theorem claim_C1_totalDebt (cs : List Componente) :
    (analizar_componentes_detallados cs).total_deudas_sri = positiveAmountsSum cs := by
  unfold analizar_componentes_detallados
  rw [foldl_componentStep_deudas]
  simp [zeroTotals]

/-! ## Payment-history aggregation
(`VehicleConsultantSRI._procesar_detalles_pagos_sri`) -/

/-- A payment record as consumed by the payments stage.  `monto` is `some m`
when the JSON amount is numeric (a missing key defaults to the numeric 0) and
`none` when it is present but non-numeric (the amount is then not summed). -/
structure Pago where
  codigoRecaudacion : Option String
  monto : Option ℚ
  fechaDePago : String
deriving DecidableEq

/-- Python `str(ano_actual) in fecha_pago` guarded by `if fecha_pago`:
the current year's decimal digits occur as a substring of a nonempty date. -/
def fechaEsteAno (anoActual : ℕ) (fecha : String) : Bool :=
  fecha ≠ "" && decide ((toString anoActual).data <:+: fecha.data)

/-- One iteration of the payments loop over the accumulator
`(detalles_pagos, total_pagos, pagos_ultimo_ano)`：the detail sub-records are
fetched per `codigoRecaudacion` through the oracle `fetchDetalle` (whose
`none` models a failed or skipped detail fetch, silently ignored), and the
payment's own amount is summed regardless. -/
def pagoStep {δ : Type} (anoActual : ℕ) (fetchDetalle : String → Option (List δ))
    (acc : List δ × ℚ × ℚ) (p : Pago) : List δ × ℚ × ℚ :=
  let detalles :=
    match p.codigoRecaudacion with
    | some cod =>
      match fetchDetalle cod with
      | some ds => acc.1 ++ ds
      | none => acc.1
    | none => acc.1
  match p.monto with
  | none => (detalles, acc.2.1, acc.2.2)
  | some monto =>
    (detalles, acc.2.1 + monto,
      if fechaEsteAno anoActual p.fechaDePago then acc.2.2 + monto else acc.2.2)

/-- The results of the payments stage. -/
structure PagosResult (δ : Type) where
  detalles_pagos : List δ
  total_pagos_realizados : ℚ
  pagos_ultimo_ano : ℚ

/-- `_procesar_detalles_pagos_sri`, restricted to its pure computation: the
loop runs over `historial_pagos[:50]` (at most the first 50 payments, "to
avoid timeout"), accumulating the fetched details and the two totals. -/
def procesar_detalles_pagos {δ : Type} (anoActual : ℕ)
    (fetchDetalle : String → Option (List δ)) (historial : List Pago) : PagosResult δ :=
  let r := (historial.take 50).foldl (pagoStep anoActual fetchDetalle) ([], 0, 0)
  { detalles_pagos := r.1, total_pagos_realizados := r.2.1, pagos_ultimo_ano := r.2.2 }

/-- Naive summation of the numeric amount of every payment in a list. -/
def naiveMontoSum (pagos : List Pago) : ℚ := (pagos.filterMap Pago.monto).sum

theorem pagoStep_total {δ : Type} (anoActual : ℕ) (f : String → Option (List δ))
    (acc : List δ × ℚ × ℚ) (p : Pago) :
    (pagoStep anoActual f acc p).2.1 =
      acc.2.1 + (match p.monto with | some m => m | none => 0) := by
  rcases p with ⟨cod, m, fecha⟩
  rcases m with _ | m
  · simp [pagoStep]
  · simp [pagoStep]

theorem foldl_pagoStep_total {δ : Type} (anoActual : ℕ) (f : String → Option (List δ))
    (pagos : List Pago) :
    ∀ acc : List δ × ℚ × ℚ,
      (pagos.foldl (pagoStep anoActual f) acc).2.1 = acc.2.1 + naiveMontoSum pagos := by
  induction pagos with
  | nil => intro acc; simp [naiveMontoSum]
  | cons p rest ih =>
    intro acc
    rw [List.foldl_cons, ih, pagoStep_total]
    unfold naiveMontoSum
    rcases hm : p.monto with _ | m
    · simp [List.filterMap_cons, hm]
    · simp only [List.filterMap_cons, hm, List.sum_cons]
      ring

/-- C2, counterexample: with 51 reported payments of amount 1 each, the
payments stage totals only the first 50, producing 50 rather than the naive
sum 51 over the exact reported list. -/
theorem claim_C2_counterexample :
    (procesar_detalles_pagos (δ := ℕ) 2026 (fun _ => none)
        (List.replicate 51 { codigoRecaudacion := none, monto := some 1, fechaDePago := "" })
      ).total_pagos_realizados ≠
      naiveMontoSum
        (List.replicate 51 { codigoRecaudacion := none, monto := some 1, fechaDePago := "" }) := by
  have h : (procesar_detalles_pagos (δ := ℕ) 2026 (fun _ => none)
      (List.replicate 51 { codigoRecaudacion := none, monto := some 1, fechaDePago := "" })
      ).total_pagos_realizados = naiveMontoSum (List.replicate 50
        { codigoRecaudacion := none, monto := some 1, fechaDePago := "" }) := by
    unfold procesar_detalles_pagos
    dsimp only
    rw [foldl_pagoStep_total]
    norm_num
  rw [h]
  norm_num [naiveMontoSum, List.filterMap_replicate]

/-- C2 (amended): the payment total produced by the payments stage equals the
naive summation of the numeric amount of the first `min(50, n)` payments of
the reported list — the stage truncates the list to its first 50 entries
before summing, so lists of at most 50 payments are summed exactly and in
full, with no deduplication; the total never depends on the detail-fetch
oracle, so a failed detail fetch never removes a payment's amount. -/
theorem claim_C2_total_pagos {δ : Type} (anoActual : ℕ)
    (fetchDetalle : String → Option (List δ)) (historial : List Pago) :
    (procesar_detalles_pagos anoActual fetchDetalle historial).total_pagos_realizados =
      naiveMontoSum (historial.take 50) ∧
    (historial.length ≤ 50 →
      (procesar_detalles_pagos anoActual fetchDetalle historial).total_pagos_realizados =
        naiveMontoSum historial) := by
  have h : (procesar_detalles_pagos anoActual fetchDetalle historial).total_pagos_realizados =
      naiveMontoSum (historial.take 50) := by
    unfold procesar_detalles_pagos
    dsimp only
    rw [foldl_pagoStep_total]
    norm_num
  exact ⟨h, fun hlen => by rw [h, List.take_of_length_le hlen]⟩

/-- C2 witness: two payments (one with a detail code the oracle fails on, one
with a non-numeric amount) are summed exactly. -/
theorem claim_C2_witness :
    (procesar_detalles_pagos (δ := ℕ) 2026 (fun _ => none)
      [{ codigoRecaudacion := some "c1", monto := some 10, fechaDePago := "2026-01-02" },
       { codigoRecaudacion := none, monto := none, fechaDePago := "" }]).total_pagos_realizados =
    naiveMontoSum
      [{ codigoRecaudacion := some "c1", monto := some 10, fechaDePago := "2026-01-02" },
       { codigoRecaudacion := none, monto := none, fechaDePago := "" }] :=
  (claim_C2_total_pagos 2026 (fun _ => none) _).2 (by norm_num)

/-! ## Consolidated risk scorer
(`VehicleConsultantSRI._realizar_analisis_consolidado_sri`) -/

/-- The fields of `VehicleDataSRI` read by the consolidated scorer. -/
structure ScoreInput where
  total_deudas_sri : ℚ
  total_multas : ℚ
  total_intereses : ℚ
  total_cuotas_vencidas : ℚ
  total_pagos_realizados : ℚ
  pagos_ultimo_ano : ℚ
  prohibido_enajenar : String
  total_prescripciones : ℚ

/-- Uppercasing for the transfer-prohibition test: ASCII plus the accented
`í`/`Í` pair appearing in the comparison list (the only non-ASCII letter the
test can match). -/
def upCharAcc (c : Char) : Char :=
  if c.toNat = 0xED then Char.ofNat 0xCD else upChar c

/-- Python `prohibido_enajenar and prohibido_enajenar.upper() in ['SI', 'SÍ', 'YES']`. -/
def prohibido_enajenar_flag (s : String) : Bool :=
  s ≠ "" && ["SI", "SÍ", "YES"].contains (String.mk (s.data.map upCharAcc))

/-- Debt-tier penalty (`total_deudas_sri`): the if/elif chain at thresholds
2000/1000/500/100/0. -/
def debtPenalty (d : ℚ) : ℚ :=
  if d > 2000 then 50 else if d > 1000 then 40 else if d > 500 then 25
  else if d > 100 then 15 else if d > 0 then 5 else 0

/-- Fine penalty (`total_multas`). -/
def multaPenalty (m : ℚ) : ℚ := if m > 100 then 20 else if m > 0 then 10 else 0

/-- Interest penalty (`total_intereses`). -/
def interesPenalty (i : ℚ) : ℚ := if i > 50 then 15 else if i > 0 then 5 else 0

/-- Overdue-IACV penalty (`total_cuotas_vencidas`). -/
def iacvPenalty (c : ℚ) : ℚ :=
  if c > 100 then 25 else if c > 50 then 20 else if c > 0 then 10 else 0

/-- Payment bonus (`total_pagos_realizados`). -/
def pagosBonus (p : ℚ) : ℚ := if p > 2000 then 10 else if p > 1000 then 5 else 0

/-- Bonus for any payment in the current year (`pagos_ultimo_ano > 0`). -/
def ultimoAnoBonus (p : ℚ) : ℚ := if p > 0 then 5 else 0

/-- Penalty for the transfer-prohibition flag. -/
def prohibidoPenalty (s : String) : ℚ := if prohibido_enajenar_flag s then 30 else 0

/-- The undocumented prescription-credit bonus: when `total_prescripciones`
is negative, `min(10, abs(total_prescripciones) / 100)` is added. -/
def prescripcionBonus (t : ℚ) : ℚ := if t < 0 then min 10 (|t| / 100) else 0

/-- The scorer's pre-clamp value: the source mutates `puntuacion` by a
sequence of independent `+=`/`-=` blocks, whose net effect is this sum. -/
def puntuacionCruda (v : ScoreInput) : ℚ :=
  100 - debtPenalty v.total_deudas_sri - multaPenalty v.total_multas
    - interesPenalty v.total_intereses - iacvPenalty v.total_cuotas_vencidas
    + pagosBonus v.total_pagos_realizados + ultimoAnoBonus v.pagos_ultimo_ano
    - prohibidoPenalty v.prohibido_enajenar + prescripcionBonus v.total_prescripciones

/-- `puntuacion_sri = max(0, min(100, puntuacion))`. -/
def puntuacion_sri (v : ScoreInput) : ℚ := max 0 (min 100 (puntuacionCruda v))

/-- The pre-clamp score exactly as the specification words it: penalties and
bonuses only, with no prescription adjustment (the spec lists none).  Written
from the spec to be compared against the source's scorer. -/
def specCruda (v : ScoreInput) : ℚ :=
  100 - debtPenalty v.total_deudas_sri - multaPenalty v.total_multas
    - interesPenalty v.total_intereses - iacvPenalty v.total_cuotas_vencidas
    + pagosBonus v.total_pagos_realizados + ultimoAnoBonus v.pagos_ultimo_ano
    - prohibidoPenalty v.prohibido_enajenar

/-- The spec's final score: the spec's pre-clamp value clamped to `[0,100]`. -/
def specPuntuacion (v : ScoreInput) : ℚ := max 0 (min 100 (specCruda v))

theorem puntuacionCruda_eq_spec_add_bonus (v : ScoreInput) :
    puntuacionCruda v = specCruda v + prescripcionBonus v.total_prescripciones := rfl

/-- C3, counterexample: at `totalDebt = 150` with a prescription credit of
−1000 (all other inputs zero), the scorer returns 95 — the spec's ordered
penalties and bonuses alone give 85, and the extra prescription bonus
`min(10, 1000/100) = 10` is applied on top. -/
theorem claim_C3_counterexample :
    puntuacion_sri
        { total_deudas_sri := 150, total_multas := 0, total_intereses := 0,
          total_cuotas_vencidas := 0, total_pagos_realizados := 0, pagos_ultimo_ano := 0,
          prohibido_enajenar := "", total_prescripciones := -1000 } ≠
      specPuntuacion
        { total_deudas_sri := 150, total_multas := 0, total_intereses := 0,
          total_cuotas_vencidas := 0, total_pagos_realizados := 0, pagos_ultimo_ano := 0,
          prohibido_enajenar := "", total_prescripciones := -1000 } := by
  norm_num [puntuacion_sri, specPuntuacion, puntuacionCruda, specCruda, debtPenalty,
    multaPenalty, interesPenalty, iacvPenalty, pagosBonus, ultimoAnoBonus, prohibidoPenalty,
    prescripcionBonus, prohibido_enajenar_flag]

/-- C3 (amended): the consolidated score equals 100 minus the spec's ordered
penalties plus the spec's bonuses, clamped to `[0,100]` — plus one further
adjustment the spec does not list: when the prescription total is negative,
the bonus `min(10, |prescriptionTotal| / 100)` is added before clamping.  In
particular, whenever the prescription total is nonnegative the score is
exactly the spec's formula. -/
theorem claim_C3_score_formula :
    (∀ v : ScoreInput, 0 ≤ v.total_prescripciones → puntuacion_sri v = specPuntuacion v) ∧
    (∀ v : ScoreInput, puntuacion_sri v =
      max 0 (min 100 (specCruda v + prescripcionBonus v.total_prescripciones))) := by
  constructor
  · intro v hv
    unfold puntuacion_sri specPuntuacion
    rw [puntuacionCruda_eq_spec_add_bonus]
    unfold prescripcionBonus
    rw [if_neg (by linarith)]
    ring_nf
  · intro v
    unfold puntuacion_sri
    rw [puntuacionCruda_eq_spec_add_bonus]

/-- C3 witness: at `totalDebt = 150`, prescriptions 0, everything else zero,
the score is the spec's 85. -/
theorem claim_C3_witness :
    puntuacion_sri
        { total_deudas_sri := 150, total_multas := 0, total_intereses := 0,
          total_cuotas_vencidas := 0, total_pagos_realizados := 0, pagos_ultimo_ano := 0,
          prohibido_enajenar := "", total_prescripciones := 0 } =
      specPuntuacion
        { total_deudas_sri := 150, total_multas := 0, total_intereses := 0,
          total_cuotas_vencidas := 0, total_pagos_realizados := 0, pagos_ultimo_ano := 0,
          prohibido_enajenar := "", total_prescripciones := 0 } :=
  claim_C3_score_formula.1 _ (by norm_num)

theorem debtPenalty_mono {d1 d2 : ℚ} (h : d1 ≤ d2) : debtPenalty d1 ≤ debtPenalty d2 := by
  unfold debtPenalty
  split_ifs <;> linarith

/-- C4: increasing `totalDebt` while holding every other scorer input fixed
never increases the final clamped score. -/
theorem claim_C4_score_antitone_in_debt (v : ScoreInput) (d1 d2 : ℚ) (h : d1 ≤ d2) :
    puntuacion_sri { v with total_deudas_sri := d2 } ≤
      puntuacion_sri { v with total_deudas_sri := d1 } := by
  have hpen := debtPenalty_mono h
  have hcruda : puntuacionCruda { v with total_deudas_sri := d2 } ≤
      puntuacionCruda { v with total_deudas_sri := d1 } := by
    unfold puntuacionCruda
    dsimp only
    linarith
  unfold puntuacion_sri
  exact max_le_max le_rfl (min_le_min le_rfl hcruda)

/-- C4 witness: raising the debt from 0 to 3000 drops the score. -/
theorem claim_C4_witness :
    puntuacion_sri
        { total_deudas_sri := 3000, total_multas := 0, total_intereses := 0,
          total_cuotas_vencidas := 0, total_pagos_realizados := 0, pagos_ultimo_ano := 0,
          prohibido_enajenar := "", total_prescripciones := 0 } ≤
      puntuacion_sri
        { total_deudas_sri := 0, total_multas := 0, total_intereses := 0,
          total_cuotas_vencidas := 0, total_pagos_realizados := 0, pagos_ultimo_ano := 0,
          prohibido_enajenar := "", total_prescripciones := 0 } :=
  claim_C4_score_antitone_in_debt
    { total_deudas_sri := 0, total_multas := 0, total_intereses := 0,
      total_cuotas_vencidas := 0, total_pagos_realizados := 0, pagos_ultimo_ano := 0,
      prohibido_enajenar := "", total_prescripciones := 0 } 0 3000 (by norm_num)

/-- C10: when the prescription total is negative (a credit), the scorer adds
the undocumented bonus `min(10, |prescriptionTotal| / 100)` to the spec's
pre-clamp score before clamping; since the bonus is a real quotient, the
final score can be a non-integer — at `totalDebt = 150` and prescription
total −150 the score is `86.5`, which no integer equals. -/
theorem claim_C10_prescription_bonus :
    (∀ v : ScoreInput, v.total_prescripciones < 0 →
      puntuacion_sri v =
        max 0 (min 100 (specCruda v + min 10 (|v.total_prescripciones| / 100)))) ∧
    (∀ n : ℤ,
      puntuacion_sri
        { total_deudas_sri := 150, total_multas := 0, total_intereses := 0,
          total_cuotas_vencidas := 0, total_pagos_realizados := 0, pagos_ultimo_ano := 0,
          prohibido_enajenar := "", total_prescripciones := -150 } ≠ (n : ℚ)) := by
  constructor
  · intro v hv
    unfold puntuacion_sri
    rw [puntuacionCruda_eq_spec_add_bonus]
    unfold prescripcionBonus
    rw [if_pos hv]
  · intro n
    have hval : puntuacion_sri
        { total_deudas_sri := 150, total_multas := 0, total_intereses := 0,
          total_cuotas_vencidas := 0, total_pagos_realizados := 0, pagos_ultimo_ano := 0,
          prohibido_enajenar := "", total_prescripciones := -150 } = 173 / 2 := by
      norm_num [puntuacion_sri, puntuacionCruda, debtPenalty, multaPenalty, interesPenalty,
        iacvPenalty, pagosBonus, ultimoAnoBonus, prohibidoPenalty, prescripcionBonus,
        prohibido_enajenar_flag]
    rw [hval]
    intro heq
    have h2 : (173 : ℚ) = 2 * (n : ℚ) := by linarith
    have h3 : (173 : ℤ) = 2 * n := by exact_mod_cast h2
    omega

/-- C10 witness: the bonus formula at prescription total −150 with
`totalDebt = 150`. -/
theorem claim_C10_witness :
    puntuacion_sri
        { total_deudas_sri := 150, total_multas := 0, total_intereses := 0,
          total_cuotas_vencidas := 0, total_pagos_realizados := 0, pagos_ultimo_ano := 0,
          prohibido_enajenar := "", total_prescripciones := -150 } =
      max 0 (min 100 (specCruda
        { total_deudas_sri := 150, total_multas := 0, total_intereses := 0,
          total_cuotas_vencidas := 0, total_pagos_realizados := 0, pagos_ultimo_ano := 0,
          prohibido_enajenar := "", total_prescripciones := -150 } + min 10 (|(-150 : ℚ)| / 100))) :=
  claim_C10_prescription_bonus.1 _ (by norm_num)

/-! ## IACV installment due-date estimation
(`VehicleConsultantSRI._estimar_fecha_vencimiento_iacv`) -/

/-- The pure month/year computation of `_estimar_fecha_vencimiento_iacv`:
`mes = (cuota_num - 1) * 3 + 3`, rolled into later years while the month
exceeds 12 via Python's floor division/modulo (`Int.fdiv`/`Int.fmod`).
The source formats the result as the string `"31/{mes:02d}/{ano}"`; the year
start and cuota number are the integers parsed from `periodoFiscal` and
`numeroCuota`. -/
def estimar_fecha_vencimiento_iacv (anoInicio cuotaNum : ℤ) : ℤ × ℤ :=
  let mes := (cuotaNum - 1) * 3 + 3
  if mes > 12 then (Int.fmod (mes - 1) 12 + 1, anoInicio + Int.fdiv (mes - 1) 12)
  else (mes, anoInicio)

example : estimar_fecha_vencimiento_iacv 2020 1 = (3, 2020) := by decide
example : estimar_fecha_vencimiento_iacv 2020 4 = (12, 2020) := by decide
example : estimar_fecha_vencimiento_iacv 2020 5 = (3, 2021) := by decide
example : estimar_fecha_vencimiento_iacv 2020 9 = (3, 2022) := by decide

/-- C9: for every cuota number `c ≥ 1` and period start year, the estimated
due (month, year) is the quarter-offset month `(c−1)*3+3` placed in the start
year, rolled over into following years with the month wrapped back into
`1..12` whenever it exceeds 12 — i.e. counting months linearly,
`year*12 + (month−1)` equals `startYear*12 + ((c−1)*3+3−1)` with the month in
`1..12`; in particular cuota 5 of period 2020 falls in month 3 of 2021. -/
theorem claim_C9_iacv_due_date :
    (∀ y c : ℤ, 1 ≤ c →
      (estimar_fecha_vencimiento_iacv y c).2 * 12 + ((estimar_fecha_vencimiento_iacv y c).1 - 1)
          = y * 12 + ((c - 1) * 3 + 3 - 1) ∧
        1 ≤ (estimar_fecha_vencimiento_iacv y c).1 ∧
        (estimar_fecha_vencimiento_iacv y c).1 ≤ 12) ∧
    estimar_fecha_vencimiento_iacv 2020 5 = (3, 2021) := by
  constructor
  · intro y c hc
    unfold estimar_fecha_vencimiento_iacv
    dsimp only
    by_cases hm : (c - 1) * 3 + 3 > 12
    · rw [if_pos hm]
      dsimp only
      rw [Int.fmod_eq_emod _ (by norm_num), Int.fdiv_eq_ediv _ (by norm_num)]
      refine ⟨by omega, by omega, by omega⟩
    · rw [if_neg hm]
      dsimp only
      push_neg at hm
      refine ⟨by ring, by omega, by omega⟩
  · decide

/-- C9 witness: cuota 9 of period 2020 lands in month 3 of 2022, consistent
with linear month counting. -/
theorem claim_C9_witness :
    (estimar_fecha_vencimiento_iacv 2020 9).2 * 12 + ((estimar_fecha_vencimiento_iacv 2020 9).1 - 1)
        = 2020 * 12 + ((9 - 1) * 3 + 3 - 1) ∧
      1 ≤ (estimar_fecha_vencimiento_iacv 2020 9).1 ∧
      (estimar_fecha_vencimiento_iacv 2020 9).1 ≤ 12 :=
  claim_C9_iacv_due_date.1 2020 9 (by norm_num)

/-! ## Response cache (`VehicleCache` in `scraper.py`)

Time is modelled in hours as a rational `now`; the source's two dicts
(`self.cache` and `self.access_times`) are modelled as association lists with
Python-dict semantics (lookup by key, in-place overwrite, ordered iteration).
The md5 key derivation is injective on `(placa, api_name)` pairs up to hash
collisions, so the key is modelled as the pair itself. -/

abbrev CacheKey := String × String

/-- One stored cache entry: the payload and the `timestamp` written at set
time (`placa`/`api` are also stored in the source but derivable from the key). -/
structure CacheEntry (α : Type) where
  data : α
  timestamp : ℚ
deriving DecidableEq

/-- The cache state: stored entries, last-access times, TTL in hours and the
entry-count capacity. -/
structure VehicleCache (α : Type) where
  cache : List (CacheKey × CacheEntry α)
  access_times : List (CacheKey × ℚ)
  ttl_hours : ℚ
  max_entries : ℕ
deriving DecidableEq

/-- Dict lookup: first binding of the key. -/
def lookupA {β : Type} : List (CacheKey × β) → CacheKey → Option β
  | [], _ => none
  | (k', v) :: rest, k => if k' = k then some v else lookupA rest k

/-- Dict deletion: drop the key's bindings. -/
def eraseA {β : Type} (l : List (CacheKey × β)) (k : CacheKey) : List (CacheKey × β) :=
  l.filter fun e => !(e.1 = k : Bool)

/-- Dict write: overwrite in place if the key is bound, else append. -/
def insertA {β : Type} : List (CacheKey × β) → CacheKey → β → List (CacheKey × β)
  | [], k, v => [(k, v)]
  | (k', v') :: rest, k, v =>
    if k' = k then (k, v) :: rest else (k', v') :: insertA rest k v

/-- `VehicleCache.get`: a bound, unexpired key is a hit (its access time is
refreshed); a bound but expired key is deleted from both dicts and misses;
an unbound key misses. -/
def VehicleCache.get {α : Type} (s : VehicleCache α) (placa api : String) (now : ℚ) :
    Option α × VehicleCache α :=
  let key := (placa, api)
  match lookupA s.cache key with
  | none => (none, s)
  | some entry =>
    if now - entry.timestamp < s.ttl_hours then
      (some entry.data, { s with access_times := insertA s.access_times key now })
    else
      (none, { s with cache := eraseA s.cache key, access_times := eraseA s.access_times key })

/-- The first phase of `_cleanup_cache`: delete every expired entry
(age ≥ TTL) from both dicts. -/
def purgeExpired {α : Type} (s : VehicleCache α) (now : ℚ) : VehicleCache α :=
  let expired := (s.cache.filter fun e => s.ttl_hours ≤ now - e.2.timestamp).map Prod.fst
  { s with
    cache := s.cache.filter fun e => now - e.2.timestamp < s.ttl_hours,
    access_times := s.access_times.filter fun a => !(expired.contains a.1) }

/-- Sorting the access-time list by last access, oldest first (`sorted(...,
key=lambda k: self.access_times[k])`). -/
def sortAccess (l : List (CacheKey × ℚ)) : List (CacheKey × ℚ) :=
  List.insertionSort (fun x y => x.2 ≤ y.2) l

/-- `_cleanup_cache`: purge all expired entries; if the cache still holds at
least `max_entries` entries, evict the `max(1, n // 5)` least-recently
accessed keys (the oldest 20% of the sorted access list). -/
def cleanup_cache {α : Type} (s : VehicleCache α) (now : ℚ) : VehicleCache α :=
  let p := purgeExpired s now
  if p.cache.length ≥ s.max_entries then
    let sorted := sortAccess p.access_times
    let removeCount := max 1 (sorted.length / 5)
    let toRemove := (sorted.take removeCount).map Prod.fst
    { p with
      cache := p.cache.filter fun e => !(toRemove.contains e.1),
      access_times := p.access_times.filter fun a => !(toRemove.contains a.1) }
  else p

/-- `VehicleCache.set`: run `_cleanup_cache` when the cache is at capacity,
then write the entry (timestamp and access time `now`). -/
def VehicleCache.set {α : Type} (s : VehicleCache α) (placa api : String) (d : α) (now : ℚ) :
    VehicleCache α :=
  let key := (placa, api)
  let s1 := if s.cache.length ≥ s.max_entries then cleanup_cache s now else s
  { s1 with
    cache := insertA s1.cache key ⟨d, now⟩,
    access_times := insertA s1.access_times key now }

theorem lookupA_insertA {β : Type} (l : List (CacheKey × β)) (k : CacheKey) (v : β) :
    lookupA (insertA l k v) k = some v := by
  induction l with
  | nil => simp [insertA, lookupA]
  | cons e rest ih =>
    rcases e with ⟨k', v'⟩
    by_cases hk : k' = k
    · subst hk
      simp [insertA, lookupA]
    · simp only [insertA, if_neg hk, lookupA, ih]

theorem mem_insertA_of_ne {β : Type} (l : List (CacheKey × β)) (k : CacheKey) (v : β)
    (e : CacheKey × β) (hne : e.1 ≠ k) : e ∈ insertA l k v ↔ e ∈ l := by
  induction l with
  | nil =>
    simp only [insertA, List.mem_singleton, List.not_mem_nil, iff_false]
    intro h
    exact hne (by rw [h])
  | cons p rest ih =>
    rcases p with ⟨k', v'⟩
    by_cases hk : k' = k
    · subst hk
      have h1 : e ≠ (k', v) := fun h => hne (by rw [h])
      have h2 : e ≠ (k', v') := fun h => hne (by rw [h])
      simp [insertA, h1, h2]
    · simp only [insertA, if_neg hk, List.mem_cons, ih]

theorem ttl_cleanup {α : Type} (s : VehicleCache α) (now : ℚ) :
    (cleanup_cache s now).ttl_hours = s.ttl_hours := by
  unfold cleanup_cache
  dsimp only
  split <;> rfl

theorem ttl_set {α : Type} (s : VehicleCache α) (p a : String) (d : α) (t : ℚ) :
    (s.set p a d t).ttl_hours = s.ttl_hours := by
  unfold VehicleCache.set
  dsimp only
  split
  · exact ttl_cleanup s t
  · rfl

theorem cache_set_lookup {α : Type} (s : VehicleCache α) (p a : String) (d : α) (t : ℚ) :
    lookupA (s.set p a d t).cache (p, a) = some ⟨d, t⟩ :=
  lookupA_insertA _ _ _

theorem cache_hit {α : Type} (s : VehicleCache α) (p a : String) (d : α) (t0 t1 : ℚ)
    (h : t1 - t0 < s.ttl_hours) : ((s.set p a d t0).get p a t1).1 = some d := by
  unfold VehicleCache.get
  dsimp only
  rw [cache_set_lookup]
  dsimp only
  rw [ttl_set, if_pos h]

theorem cache_miss {α : Type} (s : VehicleCache α) (p a : String) (d : α) (t0 t1 : ℚ)
    (h : s.ttl_hours ≤ t1 - t0) : ((s.set p a d t0).get p a t1).1 = none := by
  unfold VehicleCache.get
  dsimp only
  rw [cache_set_lookup]
  dsimp only
  rw [ttl_set, if_neg (not_lt.mpr h)]

theorem cleanup_no_evict {α : Type} (s : VehicleCache α) (now : ℚ)
    (h : (purgeExpired s now).cache.length < s.max_entries) :
    cleanup_cache s now = purgeExpired s now := by
  unfold cleanup_cache
  rw [if_neg (by omega)]

theorem cleanup_unexpired {α : Type} (s : VehicleCache α) (now : ℚ) :
    ∀ e ∈ (cleanup_cache s now).cache, now - e.2.timestamp < s.ttl_hours := by
  unfold cleanup_cache
  dsimp only
  split
  · intro e he
    have h1 := List.mem_of_mem_filter he
    have h2 := List.of_mem_filter h1
    simpa using h2
  · intro e he
    have h2 := List.of_mem_filter he
    simpa using h2

theorem cleanup_evict_iff {α : Type} (s : VehicleCache α) (now : ℚ)
    (hcap : (purgeExpired s now).cache.length ≥ s.max_entries)
    (e : CacheKey × CacheEntry α) (he : e ∈ (purgeExpired s now).cache) :
    e ∈ (cleanup_cache s now).cache ↔
      e.1 ∉ ((sortAccess (purgeExpired s now).access_times).take
        (max 1 ((sortAccess (purgeExpired s now).access_times).length / 5))).map Prod.fst := by
  unfold cleanup_cache
  rw [if_pos hcap]
  dsimp only
  rw [List.mem_filter]
  simp [he]

instance : IsTotal (CacheKey × ℚ) (fun x y => x.2 ≤ y.2) :=
  ⟨fun x y => le_total x.2 y.2⟩

instance : IsTrans (CacheKey × ℚ) (fun x y => x.2 ≤ y.2) :=
  ⟨fun _ _ _ h1 h2 => le_trans h1 h2⟩

theorem sortAccess_perm (l : List (CacheKey × ℚ)) : List.Perm (sortAccess l) l :=
  List.perm_insertionSort _ l

theorem sortAccess_sorted (l : List (CacheKey × ℚ)) :
    List.Sorted (fun x y => x.2 ≤ y.2) (sortAccess l) :=
  List.sorted_insertionSort _ l

theorem set_at_capacity {α : Type} (s : VehicleCache α) (p a : String) (d : α) (now : ℚ)
    (h : s.cache.length ≥ s.max_entries) :
    s.set p a d now =
      { cleanup_cache s now with
        cache := insertA (cleanup_cache s now).cache (p, a) ⟨d, now⟩,
        access_times := insertA (cleanup_cache s now).access_times (p, a) now } := by
  unfold VehicleCache.set
  dsimp only
  rw [if_pos h]

/-- C7: (i) after `set(plate, endpoint, payload)` at time `t0`, a `get` at
time `t1` with age `t1 − t0` strictly below the TTL returns the payload as a
hit; (ii) once the age reaches or exceeds the TTL the same `get` misses;
(iii) a `set` that finds the cache at capacity first runs the cleanup and
then writes; the cleanup purges all expired entries, and performs no LRU
eviction when the purge alone brings the count below capacity; (iv) every
entry surviving cleanup is unexpired; (v) when the cache is still at capacity
after the purge, exactly the entries whose keys are among the first
`max(1, n/5)` (the least-recently-accessed 20%) of the access list sorted by
access time are evicted; (vi) that sort is a permutation of the access list
ordered by nondecreasing access time. -/
theorem claim_C7_cache_behavior :
    (∀ (α : Type) (s : VehicleCache α) (p a : String) (d : α) (t0 t1 : ℚ),
      t1 - t0 < s.ttl_hours → ((s.set p a d t0).get p a t1).1 = some d) ∧
    (∀ (α : Type) (s : VehicleCache α) (p a : String) (d : α) (t0 t1 : ℚ),
      s.ttl_hours ≤ t1 - t0 → ((s.set p a d t0).get p a t1).1 = none) ∧
    (∀ (α : Type) (s : VehicleCache α) (p a : String) (d : α) (now : ℚ),
      s.cache.length ≥ s.max_entries →
        s.set p a d now =
          { cleanup_cache s now with
            cache := insertA (cleanup_cache s now).cache (p, a) ⟨d, now⟩,
            access_times := insertA (cleanup_cache s now).access_times (p, a) now }) ∧
    (∀ (α : Type) (s : VehicleCache α) (now : ℚ),
      (purgeExpired s now).cache.length < s.max_entries →
        cleanup_cache s now = purgeExpired s now) ∧
    (∀ (α : Type) (s : VehicleCache α) (now : ℚ),
      ∀ e ∈ (cleanup_cache s now).cache, now - e.2.timestamp < s.ttl_hours) ∧
    (∀ (α : Type) (s : VehicleCache α) (now : ℚ),
      (purgeExpired s now).cache.length ≥ s.max_entries →
      ∀ e ∈ (purgeExpired s now).cache,
        (e ∈ (cleanup_cache s now).cache ↔
          e.1 ∉ ((sortAccess (purgeExpired s now).access_times).take
            (max 1 ((sortAccess (purgeExpired s now).access_times).length / 5))).map
              Prod.fst)) ∧
    (∀ l : List (CacheKey × ℚ),
      List.Perm (sortAccess l) l ∧ List.Sorted (fun x y => x.2 ≤ y.2) (sortAccess l)) :=
  ⟨fun _ s p a d t0 t1 h => cache_hit s p a d t0 t1 h,
   fun _ s p a d t0 t1 h => cache_miss s p a d t0 t1 h,
   fun _ s p a d now h => set_at_capacity s p a d now h,
   fun _ s now h => cleanup_no_evict s now h,
   fun _ s now => cleanup_unexpired s now,
   fun _ s now hcap e he => cleanup_evict_iff s now hcap e he,
   fun l => ⟨sortAccess_perm l, sortAccess_sorted l⟩⟩

/-- C7 witness: on an initially empty cache with a 24h TTL, a get 1h after
the set hits with the stored payload, and a get 25h after the set misses. -/
theorem claim_C7_witness :
    ((VehicleCache.set ⟨[], [], 24, 1000⟩ "PBA1234" "base" (7 : ℕ) 0).get
        "PBA1234" "base" 1).1 = some 7 ∧
    ((VehicleCache.set ⟨[], [], 24, 1000⟩ "PBA1234" "base" (7 : ℕ) 0).get
        "PBA1234" "base" 25).1 = none :=
  ⟨claim_C7_cache_behavior.1 ℕ ⟨[], [], 24, 1000⟩ "PBA1234" "base" 7 0 1 (by norm_num),
   claim_C7_cache_behavior.2.1 ℕ ⟨[], [], 24, 1000⟩ "PBA1234" "base" 7 0 25 (by norm_num)⟩

/-! ## The consultation pipeline
(`VehicleConsultantSRI.consultar_vehiculo_completo`)

The upstream endpoints are modelled as oracle functions.  A stage that the
source wraps in a try/except returning an empty value on failure is an oracle
returning a plain list (its failure is the empty list); the base-info lookup,
whose miss is checked explicitly (`not base_info or 'codigoVehiculo' not in
base_info`), returns an `Option`. -/

/-- The base-info fields used downstream by the pipeline control flow. -/
structure BaseInfo where
  codigoVehiculo : ℕ
  prohibido_enajenar : String

/-- A debt rubro as consumed by the components fan-out (`codigoRubro` is
`none` when missing or falsy, making the loop skip the rubro). -/
structure Rubro where
  codigoRubro : Option ℕ

/-- An IACV installment as consumed by `_analizar_plan_iacv_sri`. -/
structure Cuota where
  estadoPago : String
  totalCuota : Option ℚ

/-- The components stage: fetch each rubro's components, skipping rubros
without a `codigoRubro`, concatenating in order. -/
def consultar_componentes (fetchComp : ℕ → List Componente) (rubros : List Rubro) :
    List Componente :=
  rubros.foldl
    (fun acc r =>
      match r.codigoRubro with
      | some cod => acc ++ fetchComp cod
      | none => acc) []

/-- `_analizar_plan_iacv_sri`, restricted to the overdue total: sum
`totalCuota` over the installments whose `estadoPago` is `VENCIDO`
(non-numeric amounts skipped). -/
def analizar_plan_iacv (plan : List Cuota) : ℚ :=
  plan.foldl
    (fun acc c =>
      if c.estadoPago = "VENCIDO" then
        match c.totalCuota with
        | some v => acc + v
        | none => acc
      else acc) 0

/-- The observable outcome of one consultation, with the sequence of stage
status markers written to `active_consultations`. -/
structure ConsultaResult where
  consulta_exitosa : Bool
  mensaje_error : String
  stages : List String
  codigo_vehiculo : ℕ
  totals : ComponentTotals
  total_pagos_realizados : ℚ
  pagos_ultimo_ano : ℚ
  puntuacion : ℚ

/-- `consultar_vehiculo_completo`: normalize the plate, query the owner and
then the base info by the normalized plate, falling back to the original
(cleaned) plate when it differs; on a double miss return the error record at
once — otherwise run the remaining stages (rubros, components, payments,
IACV, consolidated analysis) and return the successful record. -/
def consultar_vehiculo_completo {δ : Type} (placa : String)
    (fetchBase : String → Option BaseInfo)
    (fetchRubros : ℕ → List Rubro)
    (fetchComp : ℕ → List Componente)
    (fetchPagos : String → List Pago)
    (fetchDetalle : String → Option (List δ))
    (fetchPlan : ℕ → List Cuota)
    (anoActual : ℕ) : ConsultaResult :=
  let norm := (normalize_plate placa).2.1
  let orig := (normalize_plate placa).1
  let base1 := fetchBase norm
  let base2 :=
    match base1 with
    | some b => some b
    | none => if orig ≠ norm then fetchBase orig else none
  match base2 with
  | none =>
    { consulta_exitosa := false,
      mensaje_error := "No se encontró información del vehículo en el SRI",
      stages := ["consultando_propietario", "consultando_base_sri"],
      codigo_vehiculo := 0, totals := zeroTotals,
      total_pagos_realizados := 0, pagos_ultimo_ano := 0, puntuacion := 0 }
  | some b =>
    let codigo := b.codigoVehiculo
    let rubros := fetchRubros codigo
    let comps := consultar_componentes fetchComp rubros
    let pres := procesar_detalles_pagos anoActual fetchDetalle (fetchPagos norm)
    let vencidas := analizar_plan_iacv (fetchPlan codigo)
    let totals := analizar_componentes_detallados comps
    { consulta_exitosa := true,
      mensaje_error := "",
      stages := ["consultando_propietario", "consultando_base_sri",
        "consultando_rubros_sri", "consultando_componentes_sri",
        "consultando_pagos_sri", "consultando_iacv", "analizando_completo"],
      codigo_vehiculo := codigo, totals := totals,
      total_pagos_realizados := pres.total_pagos_realizados,
      pagos_ultimo_ano := pres.pagos_ultimo_ano,
      puntuacion := puntuacion_sri
        { total_deudas_sri := totals.total_deudas_sri,
          total_multas := totals.total_multas,
          total_intereses := totals.total_intereses,
          total_cuotas_vencidas := vencidas,
          total_pagos_realizados := pres.total_pagos_realizados,
          pagos_ultimo_ano := pres.pagos_ultimo_ano,
          prohibido_enajenar := b.prohibido_enajenar,
          total_prescripciones := totals.total_prescripciones } }

/-- C8: base info is requested with the normalized plate and, on a miss, with
the original (cleaned) plate when it differs; if both miss, the consultation
returns the failed record carrying the human-readable message, having run
only the owner and base stages — none of the rubros/components/payments/IACV/
analysis stages runs.  Whenever either base attempt yields a vehicle code the
consultation succeeds regardless of what every other stage oracle returns, so
the base stage is the only fatal dependency. -/
theorem claim_C8_base_stage_fatal :
    (∀ (δ : Type) (placa : String) (fB : String → Option BaseInfo)
        (fR : ℕ → List Rubro) (fC : ℕ → List Componente) (fP : String → List Pago)
        (fD : String → Option (List δ)) (fPl : ℕ → List Cuota) (ano : ℕ),
      fB ((normalize_plate placa).2.1) = none →
      ((normalize_plate placa).1 = (normalize_plate placa).2.1 ∨
        fB ((normalize_plate placa).1) = none) →
      (consultar_vehiculo_completo placa fB fR fC fP fD fPl ano).consulta_exitosa = false ∧
      (consultar_vehiculo_completo placa fB fR fC fP fD fPl ano).mensaje_error =
        "No se encontró información del vehículo en el SRI" ∧
      (consultar_vehiculo_completo placa fB fR fC fP fD fPl ano).stages =
        ["consultando_propietario", "consultando_base_sri"] ∧
      (∀ st ∈ ["consultando_rubros_sri", "consultando_componentes_sri",
          "consultando_pagos_sri", "consultando_iacv", "analizando_completo"],
        st ∉ (consultar_vehiculo_completo placa fB fR fC fP fD fPl ano).stages)) ∧
    (∀ (δ : Type) (placa : String) (fB : String → Option BaseInfo)
        (fR : ℕ → List Rubro) (fC : ℕ → List Componente) (fP : String → List Pago)
        (fD : String → Option (List δ)) (fPl : ℕ → List Cuota) (ano : ℕ) (b : BaseInfo),
      fB ((normalize_plate placa).2.1) = some b →
      (consultar_vehiculo_completo placa fB fR fC fP fD fPl ano).consulta_exitosa = true) ∧
    (∀ (δ : Type) (placa : String) (fB : String → Option BaseInfo)
        (fR : ℕ → List Rubro) (fC : ℕ → List Componente) (fP : String → List Pago)
        (fD : String → Option (List δ)) (fPl : ℕ → List Cuota) (ano : ℕ) (b : BaseInfo),
      fB ((normalize_plate placa).2.1) = none →
      (normalize_plate placa).1 ≠ (normalize_plate placa).2.1 →
      fB ((normalize_plate placa).1) = some b →
      (consultar_vehiculo_completo placa fB fR fC fP fD fPl ano).consulta_exitosa = true) := by
  refine ⟨?_, ?_, ?_⟩
  · intro δ placa fB fR fC fP fD fPl ano hn hd
    unfold consultar_vehiculo_completo
    dsimp only
    rw [hn]
    have hnone : (if (normalize_plate placa).1 ≠ (normalize_plate placa).2.1 then
        fB ((normalize_plate placa).1) else none) = none := by
      rcases hd with hd | hd
      · rw [if_neg (not_not_intro hd)]
      · by_cases ho : (normalize_plate placa).1 ≠ (normalize_plate placa).2.1
        · rw [if_pos ho, hd]
        · rw [if_neg ho]
    dsimp only
    rw [hnone]
    dsimp only
    exact ⟨rfl, rfl, rfl, by decide⟩
  · intro δ placa fB fR fC fP fD fPl ano b hn
    unfold consultar_vehiculo_completo
    dsimp only
    rw [hn]
  · intro δ placa fB fR fC fP fD fPl ano b hn ho hb
    unfold consultar_vehiculo_completo
    dsimp only
    rw [hn]
    dsimp only
    rw [if_pos ho, hb]

/-- C8 witness: with a base oracle that never finds the vehicle, the
consultation for "ABC123" fails with the human-readable message. -/
theorem claim_C8_witness :
    (consultar_vehiculo_completo (δ := ℕ) "ABC123" (fun _ => none) (fun _ => [])
        (fun _ => []) (fun _ => []) (fun _ => none) (fun _ => []) 2026).consulta_exitosa
      = false ∧
    (consultar_vehiculo_completo (δ := ℕ) "ABC123" (fun _ => none) (fun _ => [])
        (fun _ => []) (fun _ => []) (fun _ => none) (fun _ => []) 2026).mensaje_error
      = "No se encontró información del vehículo en el SRI" :=
  have h := claim_C8_base_stage_fatal.1 ℕ "ABC123" (fun _ => none) (fun _ => [])
    (fun _ => []) (fun _ => []) (fun _ => none) (fun _ => []) 2026 rfl (Or.inr rfl)
  ⟨h.1, h.2.1⟩

end PlacasEC
